import Mathlib

/-!
Shallow embedding of the JOSE token-processing unit (src/src/jose.c) of
mod_auth_openidc: JWK construction and kid derivation, the JWT model with
compact serialization, the key-resolution engine for decrypt and verify,
and the algorithm-metadata lookups.  External collaborators (the cjose
cryptographic primitive provider, the jansson structured-document provider,
the OpenSSL certificate codec) are modelled as explicit oracle parameters,
following the scope boundary of the specification.  C strings are modelled
as Lean String values; byte sequences as List Nat; NULL pointers as
Option.none.
-/

namespace ModAuthOpenidc

/-! ## cjose key-type constants (cjose_jwk_kty_t) -/

/-- Constant mirroring CJOSE_JWK_KTY_RSA from the cjose header. -/
def CJOSE_JWK_KTY_RSA : Int := 1

/-- Constant mirroring CJOSE_JWK_KTY_EC from the cjose header. -/
def CJOSE_JWK_KTY_EC : Int := 2

/-- Constant mirroring CJOSE_JWK_KTY_OCT from the cjose header. -/
def CJOSE_JWK_KTY_OCT : Int := 3

/-- Constant mirroring CJOSE_HDR_ALG_DIR ("dir") from the cjose header. -/
def CJOSE_HDR_ALG_DIR : String := "dir"

/-- Constant mirroring CJOSE_HDR_ALG_NONE ("none") from the cjose header. -/
def CJOSE_HDR_ALG_NONE : String := "none"

/-! ## JSON model (jansson structured-document provider)

The document provider is out of scope per the specification; we model its
value tree and its compact dump (JSON_COMPACT, JSON_PRESERVE_ORDER: no
spaces around separators, object members kept in insertion order).  String
escaping is not modelled; the payloads appearing in the claims contain no
characters that jansson would escape. -/

/-- JSON value tree of the structured-document provider. -/
inductive Json where
  | null : Json
  | bool (b : Bool) : Json
  | num (n : Int) : Json
  | str (s : String) : Json
  | arr (xs : List Json) : Json
  | obj (fields : List (String × Json)) : Json

/-- Lookup of an object member by name (json_object_get): none when the
value is not an object or the member is absent. -/
def json_object_get (j : Json) (k : String) : Option Json :=
  match j with
  | .obj fs => (fs.find? (fun p => p.1 = k)).map (fun p => p.2)
  | _ => none

/-- Test for json_is_object. -/
def json_is_object (j : Json) : Bool :=
  match j with
  | .obj _ => true
  | _ => false

mutual

/-- Compact serialization of a JSON value, modelling json_dumps with
JSON_COMPACT and JSON_PRESERVE_ORDER. -/
def jsonDumps : Json → String
  | .null => "null"
  | .bool b => if b then "true" else "false"
  | .num n => toString n
  | .str s => "\"" ++ s ++ "\""
  | .arr xs => "[" ++ jsonDumpsArr xs ++ "]"
  | .obj fs => "\x7b" ++ jsonDumpsFields fs ++ "\x7d"

/-- Comma-separated compact serialization of the elements of a JSON array. -/
def jsonDumpsArr : List Json → String
  | [] => ""
  | [x] => jsonDumps x
  | x :: y :: rest => jsonDumps x ++ "," ++ jsonDumpsArr (y :: rest)

/-- Comma-separated compact serialization of the members of a JSON object. -/
def jsonDumpsFields : List (String × Json) → String
  | [] => ""
  | [(k, v)] => "\"" ++ k ++ "\":" ++ jsonDumps v
  | (k, v) :: f :: rest =>
      "\"" ++ k ++ "\":" ++ jsonDumps v ++ "," ++ jsonDumpsFields (f :: rest)

end

/-! ## base64url encoding (cjose_base64url_encode: URL alphabet, no padding) -/

/-- Alphabet of base64url. -/
def b64urlAlphabet : List Char :=
  "ABCDEFGHIJKLMNOPQRSTUVWXYZabcdefghijklmnopqrstuvwxyz0123456789-_".toList

/-- Digit of base64url for a 6-bit value. -/
def b64urlChar (n : Nat) : Char := b64urlAlphabet.getD n 'A'

/-- Encoding of a byte sequence in base64url without padding, as performed
by cjose_base64url_encode. -/
def base64urlEncode : List Nat → List Char
  | [] => []
  | [b1] => [b64urlChar (b1 / 4), b64urlChar (b1 % 4 * 16)]
  | [b1, b2] =>
      [b64urlChar (b1 / 4), b64urlChar (b1 % 4 * 16 + b2 / 16),
       b64urlChar (b2 % 16 * 4)]
  | b1 :: b2 :: b3 :: rest =>
      b64urlChar (b1 / 4) :: b64urlChar (b1 % 4 * 16 + b2 / 16) ::
      b64urlChar (b2 % 16 * 4 + b3 / 64) :: b64urlChar (b3 % 64) ::
      base64urlEncode rest

/-- Byte view of an ASCII string (the payloads in the claims are ASCII, so
code points coincide with UTF-8 bytes). -/
def strBytes (s : String) : List Nat := s.toList.map Char.toNat

/-! ## Algorithm metadata: oidc_alg2kty (src/src/jose.c lines 215-236)

The strncmp calls of the source compare only the first two characters, so
the RS/PS/HS/ES cases are prefix matches.  EC support is a compile-time
capability (OIDC_JOSE_EC_SUPPORT), modelled as the Bool parameter. -/

/-- Test whether strncmp(s, pre, n) is zero for the n characters of pre:
the first n characters of s equal pre (a shorter s compares its NUL
terminator against a pre character and so never matches). -/
def strncmpEq (s : String) (pre : List Char) : Bool :=
  decide (s.toList.take pre.length = pre)

/-- Key type for an algorithm identifier, translated clause by clause from
oidc_alg2kty. -/
def oidc_alg2kty (ecSupport : Bool) (alg : String) : Int :=
  if alg = CJOSE_HDR_ALG_DIR then CJOSE_JWK_KTY_OCT
  else if strncmpEq alg ['R', 'S'] then CJOSE_JWK_KTY_RSA
  else if strncmpEq alg ['P', 'S'] then CJOSE_JWK_KTY_RSA
  else if strncmpEq alg ['H', 'S'] then CJOSE_JWK_KTY_OCT
  else if ecSupport && strncmpEq alg ['E', 'S'] then CJOSE_JWK_KTY_EC
  else if alg = "A128KW" ∨ alg = "A192KW" ∨ alg = "A256KW" then CJOSE_JWK_KTY_OCT
  else if alg = "RSA1_5" ∨ alg = "RSA-OAEP" then CJOSE_JWK_KTY_RSA
  else -1

/-! ## Error model

The C code reports errors by writing a formatted message into a caller
supplied oidc_jose_error_t; successive writes overwrite.  Each constructor
below stands for one distinct message shape of the source file, carrying
the data interpolated into the message. -/

/-- Error report left in the oidc_jose_error_t sink, one constructor per
distinct message of jose.c; noErr means the sink was not written. -/
inductive JoseErr where
  | noErr : JoseErr
  /-- message "no decryption keys configured" -/
  | noDecryptionKeysConfigured : JoseErr
  /-- message "encrypted JWT could not be decrypted with kid ..." -/
  | decryptWithKidFailed (kid : String) (diag : Nat) : JoseErr
  /-- message "could not find key with kid: ..." -/
  | couldNotFindKeyWithKid (kid : String) : JoseErr
  /-- message "encrypted JWT could not be decrypted with any of the %d keys
  ... error for last tried key is ..." -/
  | decryptAllKeysFailed (count : Nat) (lastDiag : Option Nat) : JoseErr
  /-- message "cjose_jwe_import failed ..." -/
  | jweImportFailed : JoseErr
  /-- message "cjose_jws_import failed ..." -/
  | jwsImportFailed : JoseErr
  /-- message "cjose_jws_get_plaintext failed ..." -/
  | jwsGetPlaintextFailed : JoseErr
  /-- message "JSON parsing (json_loads) failed ..." -/
  | jsonParseFailed : JoseErr
  /-- message "JSON value is not an object" -/
  | jsonNotObject : JoseErr
  /-- message "cjose_jws_verify failed ..." -/
  | jwsVerifyFailed : JoseErr
  /-- message "could not verify signature against any of the (%d) provided
  keys"; the hint flag records whether the "you have probably provided no
  or incorrect keys" suffix was appended (count equal to zero). -/
  | verifyAllKeysFailed (count : Nat) (hint : Bool) : JoseErr
deriving DecidableEq, Repr

/-! ## JWK and JWT entities -/

/-- JWK struct (oidc_jwk_t): kid and kty as read back from the cjose key,
and the opaque cjose key-material handle (none models a NULL pointer).
The x5c chain and thumbprints are omitted here; the claims about them act
through the decode-path oracles. -/
structure OidcJwk where
  kid : Option String := none
  kty : Int := 0
  cjoseJwk : Option Nat := none
deriving DecidableEq, Repr

/-- JWT struct (oidc_jwt_t): header fields as parsed, payload data, and the
opaque cjose_jws handle. -/
structure OidcJwt where
  headerJson : Option Json := none
  headerAlg : Option String := none
  headerEnc : Option String := none
  headerKid : Option String := none
  payloadStr : Option String := none
  payloadJson : Option Json := none
  payloadIss : Option String := none
  payloadSub : Option String := none
  payloadExp : Option Int := none
  payloadIat : Option Int := none
  cjoseJws : Option Nat := none

/-- Key type of a JWT via its header alg (oidc_jwt_alg2kty).  The C code
passes header.alg to strcmp unconditionally; a JWT with a NULL alg is
undefined behaviour there and is modelled as the empty string, which maps
to the unknown key type. -/
def oidc_jwt_alg2kty (ecSupport : Bool) (jwt : OidcJwt) : Int :=
  oidc_alg2kty ecSupport (jwt.headerAlg.getD "")

/-! ## JWK destruction (oidc_jwk_destroy, src/src/jose.c lines 374-381)

The struct itself lives in the pool; destroy only releases the cjose key
handle and clears the field.  The Bool of the result records whether
cjose_jwk_release was invoked during the call. -/

/-- Destruction of a JWK: none models a NULL argument; the result carries
the JWK state after the call and whether the key handle was released. -/
def oidc_jwk_destroy (jwk : Option OidcJwk) : Option OidcJwk × Bool :=
  match jwk with
  | none => (none, false)
  | some j =>
    match j.cjoseJwk with
    | some _ => (some { j with cjoseJwk := none }, true)
    | none => (some j, false)

/-! ## kid derivation (src/src/jose.c lines 426-508)

The SHA-256 digest is computed by the primitive provider (OpenSSL), out of
scope per the specification, so it enters as the oracle parameter sha of
type List Nat to List Nat. -/

/-- Hash of a byte sequence followed by base64url encoding, modelling
oidc_jose_hash_and_base64url_encode for the SHA-256 digest oracle. -/
def oidc_jose_hash_and_base64url_encode (sha : List Nat → List Nat)
    (input : List Nat) : String :=
  String.mk (base64urlEncode (sha input))

/-- Kid selection of oidc_jwk_set_or_generate_kid: an explicit kid is used
verbatim, otherwise the kid is the base64url encoding of the digest of the
key parameters. -/
def oidc_jwk_set_or_generate_kid (sha : List Nat → List Nat)
    (sKid : Option String) (keyParams : List Nat) : String :=
  match sKid with
  | some k => k
  | none => oidc_jose_hash_and_base64url_encode sha keyParams

/-- Construction of an "oct" symmetric JWK (oidc_jwk_create_symmetric_key).
The createOct oracle stands for cjose_jwk_create_oct_spec and yields the
opaque key-material handle; when setKid is false the cjose key carries no
kid and cjose_jwk_get_kid returns NULL. -/
def oidc_jwk_create_symmetric_key (sha : List Nat → List Nat)
    (createOct : List Nat → Nat) (skid : Option String) (key : List Nat)
    (setKid : Bool) : OidcJwk :=
  let kid : Option String :=
    if setKid then some (oidc_jwk_set_or_generate_kid sha skid key) else none
  { kid := kid, kty := CJOSE_JWK_KTY_OCT, cjoseJwk := some (createOct key) }

/-- Key fingerprint of the RSA import path (src/src/jose.c lines
1289-1291): big-endian modulus bytes followed by big-endian exponent
bytes. -/
def oidc_jwk_rsa_fingerprint (n e : List Nat) : List Nat := n ++ e

/-- Kid assigned by oidc_jwk_rsa_bio_to_jwk (src/src/jose.c lines
1289-1296) given the modulus and exponent bytes extracted with BN_bn2bin:
oidc_jwk_set_or_generate_kid over the fingerprint. -/
def oidc_jwk_rsa_bio_to_jwk_kid (sha : List Nat → List Nat)
    (kid : Option String) (n e : List Nat) : String :=
  oidc_jwk_set_or_generate_kid sha kid (oidc_jwk_rsa_fingerprint n e)

/-! ## JWT compact serialization (oidc_jwt_serialize, src/src/jose.c lines
177-210) -/

/-- Constant OIDC_JOSE_HDR_ALG_NONE: the pre-computed base64url encoding of
the minimal header with alg none. -/
def OIDC_JOSE_HDR_ALG_NONE : String := "eyJhbGciOiJub25lIn0"

/-- Compact serialization of a JWT.  For a signing algorithm the export is
delegated to cjose_jws_export on the signature handle (the exportJws
oracle); for alg none the result is the fixed header constant, a dot, the
base64url of the compact payload JSON, and a trailing dot.  A JWT with a
NULL header alg or (in the none case) a NULL payload JSON is undefined
behaviour in the C code and is modelled as a NULL result. -/
def oidc_jwt_serialize (exportJws : Option Nat → Option String)
    (jwt : OidcJwt) : Option String :=
  match jwt.headerAlg with
  | none => none
  | some alg =>
    if alg ≠ CJOSE_HDR_ALG_NONE then
      exportJws jwt.cjoseJws
    else
      match jwt.payloadJson with
      | none => none
      | some p =>
        some (OIDC_JOSE_HDR_ALG_NONE ++ "." ++
              String.mk (base64urlEncode (strBytes (jsonDumps p))) ++ ".")

/-! ## Key-resolution engine: decrypt (src/src/jose.c lines 706-787)

The cjose JWE object is reduced to the protected-header fields the code
reads (kid and alg via cjose_header_get).  The decryption primitive
cjose_jwe_decrypt is the oracle decryptPrim from the key-material handle to
either a diagnostic code (failure, what cjose_err then holds) or the
plaintext. -/

/-- Protected-header view of an imported cjose JWE object. -/
structure CjoseJwe where
  hdrKid : Option String := none
  hdrAlg : String := ""

/-- Result of oidc_jwe_decrypt_impl: the plaintext when decryption
succeeded, the final error-sink state, and the keys on which
cjose_jwe_decrypt was actually invoked, in order. -/
structure JweImplOut where
  plaintext : Option String
  err : JoseErr
  tried : List OidcJwk

/-- Trial loop of oidc_jwe_decrypt_impl for a header without kid: every key
whose kty equals the header algorithm key type is attempted, stopping at
the first success; the result pairs the plaintext (none when all attempts
failed) with the list of keys attempted. -/
def oidc_jwe_decrypt_loop (decryptPrim : Option Nat → Except Nat String)
    (kty : Int) : List OidcJwk → Option String × List OidcJwk
  | [] => (none, [])
  | jwk :: rest =>
    if jwk.kty = kty then
      match decryptPrim jwk.cjoseJwk with
      | .ok pt => (some pt, [jwk])
      | .error _ =>
        let r := oidc_jwe_decrypt_loop decryptPrim kty rest
        (r.1, jwk :: r.2)
    else oidc_jwe_decrypt_loop decryptPrim kty rest

/-- Diagnostic that cjose_err holds after a decryption attempt on the given
key: the code of the failure, or none when the attempt succeeded. -/
def lastAttemptDiag (decryptPrim : Option Nat → Except Nat String)
    (tried : List OidcJwk) : Option Nat :=
  match tried.getLast? with
  | none => none
  | some j =>
    match decryptPrim j.cjoseJwk with
    | .error e => some e
    | .ok _ => none

/-- Decryption of an imported JWE against a keyset
(oidc_jwe_decrypt_impl).  A NULL (none) or empty keyset fails fast before
any primitive call; with a kid the key is looked up exactly; without a kid
the trial loop runs and a total failure reports the keyset size and the
diagnostic of the last attempt. -/
def oidc_jwe_decrypt_impl (ecSupport : Bool)
    (decryptPrim : Option Nat → Except Nat String) (jwe : CjoseJwe)
    (keys : Option (List OidcJwk)) : JweImplOut :=
  match keys with
  | none => ⟨none, .noDecryptionKeysConfigured, []⟩
  | some ks =>
    if ks.length = 0 then ⟨none, .noDecryptionKeysConfigured, []⟩
    else
      match jwe.hdrKid with
      | some kid =>
        match ks.find? (fun k => k.kid = some kid) with
        | some jwk =>
          match decryptPrim jwk.cjoseJwk with
          | .ok pt => ⟨some pt, .noErr, [jwk]⟩
          | .error e => ⟨none, .decryptWithKidFailed kid e, [jwk]⟩
        | none => ⟨none, .couldNotFindKeyWithKid kid, []⟩
      | none =>
        let r := oidc_jwe_decrypt_loop decryptPrim
          (oidc_alg2kty ecSupport jwe.hdrAlg) ks
        match r.1 with
        | some pt => ⟨some pt, .noErr, r.2⟩
        | none =>
          ⟨none, .decryptAllKeysFailed ks.length
                   (lastAttemptDiag decryptPrim r.2), r.2⟩

/-- Result of oidc_jwe_decrypt: the returned apr_byte_t, the state of the
caller output pointer s_json after the call, and the error sink. -/
structure JweDecryptOut where
  rc : Bool
  sJson : Option String
  err : JoseErr

/-- Decryption entry point oidc_jwe_decrypt.  The jweImport oracle stands
for cjose_jwe_import.  When import fails and importMustSucceed is false the
original input is copied to the output; when it fails and the flag is true
the output is left untouched and an error is reported.  The C function
returns the test s_json different from NULL, so the caller initial value
sJson0 takes part in the returned byte. -/
def oidc_jwe_decrypt (ecSupport : Bool)
    (jweImport : String → Option CjoseJwe)
    (decryptPrim : Option Nat → Except Nat String) (inputJson : String)
    (keys : Option (List OidcJwk)) (sJson0 : Option String)
    (importMustSucceed : Bool) : JweDecryptOut :=
  match jweImport inputJson with
  | some jwe =>
    let d := oidc_jwe_decrypt_impl ecSupport decryptPrim jwe keys
    let sJson := match d.plaintext with
      | some pt => some pt
      | none => sJson0
    ⟨sJson.isSome, sJson, d.err⟩
  | none =>
    if importMustSucceed = false then ⟨true, some inputJson, .noErr⟩
    else ⟨sJson0.isSome, sJson0, .jweImportFailed⟩

/-! ## JWT parsing (src/src/jose.c lines 604-846)

The parse path first runs oidc_jwe_decrypt with importMustSucceed FALSE on
a NULL-initialized local s_json, then imports the result as a compact JWS
(the jwsImport oracle, yielding an opaque handle), copies the protected
header, extracts the plaintext (the jwsPlaintext oracle) and parses it as a
JSON object payload (the jsonLoads oracle standing for json_loads). -/

/-- String read of a header attribute through cjose_header_get: none when
the attribute is absent or not a string. -/
def cjose_header_get (hdr : Json) (k : String) : Option String :=
  match json_object_get hdr k with
  | some (.str s) => some s
  | _ => none

/-- Optional string claim extraction (oidc_jose_get_string with
is_mandatory FALSE): a present string member is copied, anything else
leaves the result NULL. -/
def oidc_jose_get_string_opt (j : Json) (k : String) : Option String :=
  match json_object_get j k with
  | some (.str s) => some s
  | _ => none

/-- Optional timestamp claim extraction (oidc_jose_get_timestamp with
is_mandatory FALSE): a present number member is read, anything else leaves
the empty sentinel, modelled as none. -/
def oidc_jose_get_timestamp_opt (j : Json) (k : String) : Option Int :=
  match json_object_get j k with
  | some (.num n) => some n
  | _ => none

/-- Payload fields produced by oidc_jose_parse_payload. -/
structure JwtPayload where
  str : String
  json : Json
  iss : Option String
  sub : Option String
  exp : Option Int
  iat : Option Int

/-- Parsing of the payload bytes (oidc_jose_parse_payload): the bytes must
parse as JSON and the value must be an object; iss, exp, iat and sub are
then extracted opportunistically. -/
def oidc_jose_parse_payload (jsonLoads : String → Option Json)
    (sPayload : String) : Except JoseErr JwtPayload :=
  match jsonLoads sPayload with
  | none => .error .jsonParseFailed
  | some j =>
    if json_is_object j then
      .ok ⟨sPayload, j,
           oidc_jose_get_string_opt j "iss",
           oidc_jose_get_string_opt j "sub",
           oidc_jose_get_timestamp_opt j "exp",
           oidc_jose_get_timestamp_opt j "iat"⟩
    else .error .jsonNotObject

/-- Oracle bundle for the external collaborators used on the parse path. -/
structure ParseEnv where
  jweImport : String → Option CjoseJwe
  decryptPrim : Option Nat → Except Nat String
  jwsImport : String → Option Nat
  jwsHeader : Nat → Json
  jwsPlaintext : Nat → Option String
  jsonLoads : String → Option Json

/-- Result of oidc_jwt_parse: the returned apr_byte_t, the state of the
caller output pointer j_jwt after the call, whether oidc_jwt_destroy was
invoked on the JWT built during the call, and the error sink. -/
structure ParseOut where
  rc : Bool
  jjwt : Option OidcJwt
  destroyed : Bool
  err : JoseErr

/-- Parse and optionally decrypt a JWT (oidc_jwt_parse).  The parameter j0
is the caller value of the output pointer on entry; the decrypt stage runs
on a NULL-initialized local s_json.  On a JWS-import failure and on a
payload failure the built JWT is destroyed and the output pointer cleared;
the plaintext-extraction failure branch of the source returns FALSE without
either. -/
def oidc_jwt_parse (ecSupport : Bool) (env : ParseEnv) (inputJson : String)
    (keys : Option (List OidcJwk)) (j0 : Option OidcJwt) : ParseOut :=
  let d := oidc_jwe_decrypt ecSupport env.jweImport env.decryptPrim
    inputJson keys none false
  match d.sJson with
  | none => ⟨false, j0, false, d.err⟩
  | some s =>
    match env.jwsImport s with
    | none => ⟨false, none, true, .jwsImportFailed⟩
    | some h =>
      let hdr := env.jwsHeader h
      let jwt : OidcJwt :=
        { headerJson := some hdr,
          headerAlg := cjose_header_get hdr "alg",
          headerEnc := cjose_header_get hdr "enc",
          headerKid := cjose_header_get hdr "kid",
          cjoseJws := some h }
      match env.jwsPlaintext h with
      | none => ⟨false, some jwt, false, .jwsGetPlaintextFailed⟩
      | some pt =>
        match oidc_jose_parse_payload env.jsonLoads pt with
        | .error e => ⟨false, none, true, e⟩
        | .ok pl =>
          ⟨true,
           some { jwt with payloadStr := some pl.str,
                           payloadJson := some pl.json,
                           payloadIss := pl.iss, payloadSub := pl.sub,
                           payloadExp := pl.exp, payloadIat := pl.iat },
           false, d.err⟩

/-! ## Key-resolution engine: verify (src/src/jose.c lines 951-1020)

The deprecated flag is oidc_jose_version_deprecated: the cjose version
string begins with "0.4.", a provider whose cjose_jws_verify invalidates
its own state on failure.  The verifyPrim oracle is cjose_jws_verify,
taking the signature handle currently held by the JWT and the key-material
handle. -/

/-- Version check oidc_jose_version_deprecated: strstr finds the deprecated
marker "0.4." at the very start of the provider version string. -/
def oidc_jose_version_deprecated (version : String) : Bool :=
  strncmpEq version ['0', '.', '4', '.']

/-- Record of one cjose_jws_verify invocation: the signature handle passed,
the key handle passed, and the returned byte. -/
structure VCall where
  jws : Option Nat
  key : Option Nat
  ok : Bool
deriving DecidableEq, Repr

/-- Trial loop of oidc_jwt_verify for a header without kid, returning the
final rc, the signature handle held by the JWT after the loop, and the
cjose_jws_verify invocations in order.  A key of mismatching kty is
skipped; a verify failure under the deprecated provider nulls the handle;
the loop exits when rc is TRUE or the handle is NULL. -/
def oidc_jwt_verify_loop (deprecated : Bool)
    (verifyPrim : Option Nat → Option Nat → Bool) (kty : Int) :
    Option Nat → List OidcJwk → Bool × Option Nat × List VCall
  | jws, [] => (false, jws, [])
  | jws, jwk :: rest =>
    if jwk.kty = kty then
      let ok := verifyPrim jws jwk.cjoseJwk
      let c : VCall := ⟨jws, jwk.cjoseJwk, ok⟩
      if ok then (true, jws, [c])
      else
        let jws1 := if deprecated then none else jws
        if jws1 = none then (false, jws1, [c])
        else
          let r := oidc_jwt_verify_loop deprecated verifyPrim kty jws1 rest
          (r.1, r.2.1, c :: r.2.2)
    else
      if jws = none then (false, jws, [])
      else oidc_jwt_verify_loop deprecated verifyPrim kty jws rest

/-- Result of oidc_jwt_verify: the returned apr_byte_t, the JWT after the
call (its signature handle may have been invalidated), the error sink, and
the cjose_jws_verify invocations in order. -/
structure VerifyOut where
  rc : Bool
  jwt : OidcJwt
  err : JoseErr
  calls : List VCall

/-- Signature verification oidc_jwt_verify.  With a kid header the key is
looked up exactly and verified once (a failure under the deprecated
provider nulls the handle); without a kid the trial loop runs over the
keyset and a FALSE outcome reports the keyset size, with the hint suffix
exactly when the keyset is empty. -/
def oidc_jwt_verify (deprecated : Bool)
    (verifyPrim : Option Nat → Option Nat → Bool) (ecSupport : Bool)
    (jwt : OidcJwt) (keys : List OidcJwk) : VerifyOut :=
  match jwt.headerKid with
  | some kid =>
    match keys.find? (fun k => k.kid = some kid) with
    | some jwk =>
      let ok := verifyPrim jwt.cjoseJws jwk.cjoseJwk
      if ok then ⟨true, jwt, .noErr, [⟨jwt.cjoseJws, jwk.cjoseJwk, true⟩]⟩
      else
        let jwt1 := if deprecated then { jwt with cjoseJws := none } else jwt
        ⟨false, jwt1, .jwsVerifyFailed, [⟨jwt.cjoseJws, jwk.cjoseJwk, false⟩]⟩
    | none => ⟨false, jwt, .couldNotFindKeyWithKid kid, []⟩
  | none =>
    let r := oidc_jwt_verify_loop deprecated verifyPrim
      (oidc_jwt_alg2kty ecSupport jwt) jwt.cjoseJws keys
    let jwt1 := { jwt with cjoseJws := r.2.1 }
    if r.1 then ⟨true, jwt1, .noErr, r.2.2⟩
    else ⟨false, jwt1,
          .verifyAllKeysFailed keys.length (keys.length == 0), r.2.2⟩

/-! ## x5c-only RSA JWK import (oidc_jwk_parse_rsa_x5c, src/src/jose.c
lines 1346-1424)

The while loop of the source copies 75 bytes per iteration with
apr_pstrmemdup and advances by 75; as a C string the final fragment is the
remainder of the payload, so each iteration contributes the next at most 75
characters.  The certificate-decode path oidc_jwk_rsa_bio_to_jwk is the
bioToJwk oracle, receiving the BIO content, the optional kid and the
is-private flag. -/

/-- Constant OIDC_JOSE_CERT_BEGIN. -/
def OIDC_JOSE_CERT_BEGIN : String := "-----BEGIN CERTIFICATE-----"

/-- Constant OIDC_JOSE_CERT_END. -/
def OIDC_JOSE_CERT_END : String := "-----END CERTIFICATE-----"

/-- Iteration of the while loop of oidc_jwk_parse_rsa_x5c: the next 75
characters of the payload followed by a newline, repeated until the payload
is consumed.  The fuel argument only bounds the number of iterations and is
always sufficient when at least the payload length. -/
def x5cPemGo : Nat → List Char → String
  | 0, _ => ""
  | _, [] => ""
  | Nat.succ n, c :: cs =>
      String.mk ((c :: cs).take 75) ++ "\n" ++ x5cPemGo n ((c :: cs).drop 75)

/-- While loop of oidc_jwk_parse_rsa_x5c over the whole payload. -/
def x5cPemLoop (cs : List Char) : String := x5cPemGo cs.length cs

/-- PEM text assembled by oidc_jwk_parse_rsa_x5c around the base64 payload
of the first x5c element. -/
def x5cPemText (sX5c : String) : String :=
  OIDC_JOSE_CERT_BEGIN ++ "\n" ++ x5cPemLoop sX5c.toList ++
  OIDC_JOSE_CERT_END ++ "\n"

/-- Result of oidc_jwk_parse_rsa_x5c: the returned apr_byte_t, the cjose
key handle written through the output parameter, and the invocation of the
certificate-decode path when one was made (BIO content, kid, is-private
flag). -/
structure X5cOut where
  rv : Bool
  jwk : Option Nat
  call : Option (String × Option String × Bool)

/-- Optional kid member read by oidc_jwk_parse_rsa_x5c: present and a
string, or absent. -/
def x5cKid (json : Json) : Option String :=
  match json_object_get json "kid" with
  | some (.str k) => some k
  | _ => none

/-- Import of an RSA JWK given as a JSON object with an x5c array
(oidc_jwk_parse_rsa_x5c): the first array element must be a string, PEM
framing is reconstructed around it and the result is handed to the
certificate-decode path with the optional kid member and is-private
FALSE. -/
def oidc_jwk_parse_rsa_x5c
    (bioToJwk : String → Option String → Bool → Bool × Option Nat)
    (json : Json) : X5cOut :=
  match json_object_get json "x5c" with
  | none => ⟨false, none, none⟩
  | some v =>
    match v with
    | .arr xs =>
      match xs.get? 0 with
      | none => ⟨false, none, none⟩
      | some e =>
        match e with
        | .str sX5c =>
          let s := x5cPemText sX5c
          let r := bioToJwk s (x5cKid json) false
          ⟨r.1, r.2, some (s, x5cKid json, false)⟩
        | _ => ⟨false, none, none⟩
    | _ => ⟨false, none, none⟩

/-! ## Specification-side reference definitions

The next definitions transcribe the wording of the specification (not the
source) and exist only to be compared with the source-derived definitions
above. -/

/-- Closed set of algorithm identifiers recognized by the specification
algorithm-metadata tables for key-type lookup. -/
def specRecognizedAlgs : List String :=
  ["dir", "HS256", "HS384", "HS512", "A128KW", "A192KW", "A256KW",
   "RS256", "RS384", "RS512", "PS256", "PS384", "PS512",
   "RSA1_5", "RSA-OAEP", "ES256", "ES384", "ES512"]

/-- Division of a character sequence into consecutive chunks of 75
characters, the last possibly shorter: the line-wrapping the specification
prescribes for the x5c payload.  The fuel argument bounds the number of
chunks and is always sufficient when at least the sequence length. -/
def specChunksGo : Nat → List Char → List (List Char)
  | 0, _ => []
  | _, [] => []
  | Nat.succ n, c :: cs =>
      (c :: cs).take 75 :: specChunksGo n ((c :: cs).drop 75)

/-- Chunking of a whole character sequence into 75-character lines. -/
def specChunks75 (cs : List Char) : List (List Char) :=
  specChunksGo cs.length cs

/-- Concatenation of chunk lines, each followed by a newline. -/
def specPemLines : List (List Char) → String
  | [] => ""
  | l :: ls => String.mk l ++ "\n" ++ specPemLines ls

/-- PEM text the specification describes: the BEGIN delimiter, the payload
wrapped into lines at 75 characters, and the END delimiter. -/
def specPemText (sX5c : String) : String :=
  OIDC_JOSE_CERT_BEGIN ++ "\n" ++ specPemLines (specChunks75 sX5c.toList) ++
  OIDC_JOSE_CERT_END ++ "\n"

/-! ## Helper lemmas -/

/-- List of length at most one has an empty dropLast. -/
theorem dropLast_eq_nil_of_length_le_one {α : Type} {l : List α}
    (h : l.length ≤ 1) : l.dropLast = [] := by
  match l with
  | [] => rfl
  | [a] => rfl
  | a :: b :: t => simp at h

/-- Under the deprecated provider the verify trial loop makes at most one
cjose_jws_verify call, and a failing call leaves the signature handle NULL
and the result FALSE. -/
theorem verify_loop_deprecated_stops (vp : Option Nat → Option Nat → Bool)
    (kty : Int) :
    ∀ (jws : Option Nat) (ks : List OidcJwk),
      (oidc_jwt_verify_loop true vp kty jws ks).2.2.length ≤ 1 ∧
      ∀ c ∈ (oidc_jwt_verify_loop true vp kty jws ks).2.2, c.ok = false →
        (oidc_jwt_verify_loop true vp kty jws ks).2.1 = none ∧
        (oidc_jwt_verify_loop true vp kty jws ks).1 = false := by
  intro jws ks
  induction ks generalizing jws with
  | nil => simp [oidc_jwt_verify_loop]
  | cons jwk rest ih =>
    by_cases hk : jwk.kty = kty
    · by_cases hv : vp jws jwk.cjoseJwk
      · simp [oidc_jwt_verify_loop, hk, hv]
      · simp [oidc_jwt_verify_loop, hk, hv]
    · by_cases hj : jws = (none : Option Nat)
      · simp [oidc_jwt_verify_loop, hk, hj]
      · simpa [oidc_jwt_verify_loop, hk, hj] using ih jws

/-- Shape of oidc_jwt_verify in the branch without a kid header. -/
theorem verify_no_kid_eq (dep : Bool) (vp : Option Nat → Option Nat → Bool)
    (ec : Bool) (jwt : OidcJwt) (keys : List OidcJwk)
    (hk : jwt.headerKid = none) :
    oidc_jwt_verify dep vp ec jwt keys =
      ⟨(oidc_jwt_verify_loop dep vp (oidc_jwt_alg2kty ec jwt)
          jwt.cjoseJws keys).1,
       { jwt with cjoseJws := (oidc_jwt_verify_loop dep vp
           (oidc_jwt_alg2kty ec jwt) jwt.cjoseJws keys).2.1 },
       if (oidc_jwt_verify_loop dep vp (oidc_jwt_alg2kty ec jwt)
             jwt.cjoseJws keys).1 then .noErr
       else .verifyAllKeysFailed keys.length (keys.length == 0),
       (oidc_jwt_verify_loop dep vp (oidc_jwt_alg2kty ec jwt)
          jwt.cjoseJws keys).2.2⟩ := by
  simp only [oidc_jwt_verify, hk]
  cases (oidc_jwt_verify_loop dep vp (oidc_jwt_alg2kty ec jwt)
      jwt.cjoseJws keys).1 <;> simp

/-- Specification of the kid-less decrypt trial loop: every key attempted
matches the requested key type and belongs to the keyset; a success is the
last attempt and all earlier attempts failed; a total failure means every
attempt failed. -/
theorem jwe_loop_spec (dp : Option Nat → Except Nat String) (kty : Int) :
    ∀ ks : List OidcJwk,
      (∀ j ∈ (oidc_jwe_decrypt_loop dp kty ks).2, j.kty = kty ∧ j ∈ ks) ∧
      (∀ p, (oidc_jwe_decrypt_loop dp kty ks).1 = some p →
        ∃ t k, (oidc_jwe_decrypt_loop dp kty ks).2 = t ++ [k] ∧
          dp k.cjoseJwk = .ok p ∧
          ∀ j ∈ t, ∃ e, dp j.cjoseJwk = .error e) ∧
      ((oidc_jwe_decrypt_loop dp kty ks).1 = none →
        ∀ j ∈ (oidc_jwe_decrypt_loop dp kty ks).2,
          ∃ e, dp j.cjoseJwk = .error e) := by
  intro ks
  induction ks with
  | nil => simp [oidc_jwe_decrypt_loop]
  | cons jwk rest ih =>
    by_cases hk : jwk.kty = kty
    · cases hd : dp jwk.cjoseJwk with
      | ok pt =>
        refine ⟨?_, ?_, ?_⟩
        · intro j hj
          simp only [oidc_jwe_decrypt_loop, hk, if_pos, hd] at hj
          simp only [List.mem_singleton] at hj
          subst hj
          exact ⟨hk, List.mem_cons_self _ _⟩
        · intro p hp
          simp only [oidc_jwe_decrypt_loop, hk, if_pos, hd,
            Option.some.injEq] at hp
          refine ⟨[], jwk, ?_, ?_, by simp⟩
          · simp [oidc_jwe_decrypt_loop, hk, hd]
          · rw [hd, hp]
        · intro hp
          simp [oidc_jwe_decrypt_loop, hk, hd] at hp
      | error e =>
        refine ⟨?_, ?_, ?_⟩
        · intro j hj
          simp only [oidc_jwe_decrypt_loop, hk, if_pos, hd,
            List.mem_cons] at hj
          rcases hj with hj | hj
          · subst hj; exact ⟨hk, List.mem_cons_self _ _⟩
          · obtain ⟨h1, h2⟩ := (ih).1 j hj
            exact ⟨h1, List.mem_cons_of_mem jwk h2⟩
        · intro p hp
          simp only [oidc_jwe_decrypt_loop, hk, if_pos, hd] at hp
          obtain ⟨t, k, ht, hok, hall⟩ := (ih).2.1 p hp
          refine ⟨jwk :: t, k, ?_, hok, ?_⟩
          · simp [oidc_jwe_decrypt_loop, hk, hd, ht]
          · intro j hj
            rcases List.mem_cons.mp hj with hj | hj
            · subst hj; exact ⟨e, hd⟩
            · exact hall j hj
        · intro hp j hj
          simp only [oidc_jwe_decrypt_loop, hk, if_pos, hd] at hp hj
          rcases List.mem_cons.mp hj with hj | hj
          · subst hj; exact ⟨e, hd⟩
          · exact (ih).2.2 hp j hj
    · refine ⟨?_, ?_, ?_⟩
      · intro j hj
        simp only [oidc_jwe_decrypt_loop, hk, if_neg] at hj
        obtain ⟨h1, h2⟩ := (ih).1 j hj
        exact ⟨h1, List.mem_cons_of_mem jwk h2⟩
      · intro p hp
        simp only [oidc_jwe_decrypt_loop, hk, if_neg] at hp ⊢
        exact (ih).2.1 p hp
      · intro hp
        simp only [oidc_jwe_decrypt_loop, hk, if_neg] at hp ⊢
        exact (ih).2.2 hp

/-! ## Theorems -/

/-- C4: when the provider version is the deprecated one (version string
beginning with "0.4."), every verification failure inside oidc_jwt_verify
is the last cjose_jws_verify call of that invocation (so the invalidated
handle is never passed to the primitive again) and leaves the JWT signature
handle NULL and the result FALSE. -/
theorem deprecated_verify_short_circuit :
    ∀ (version : String) (vp : Option Nat → Option Nat → Bool) (ec : Bool)
      (jwt : OidcJwt) (keys : List OidcJwk),
      oidc_jose_version_deprecated version = true →
      (∀ c ∈ (oidc_jwt_verify (oidc_jose_version_deprecated version) vp ec
                jwt keys).calls.dropLast, c.ok = true) ∧
      (∀ c ∈ (oidc_jwt_verify (oidc_jose_version_deprecated version) vp ec
                jwt keys).calls, c.ok = false →
        (oidc_jwt_verify (oidc_jose_version_deprecated version) vp ec
            jwt keys).jwt.cjoseJws = none ∧
        (oidc_jwt_verify (oidc_jose_version_deprecated version) vp ec
            jwt keys).rc = false) := by
  intro version vp ec jwt keys hdep
  rw [hdep]
  cases hk : jwt.headerKid with
  | some kid =>
    cases hf : keys.find? (fun k => k.kid = some kid) with
    | none => constructor <;> simp [oidc_jwt_verify, hk, hf]
    | some jwk =>
      by_cases hv : vp jwt.cjoseJws jwk.cjoseJwk <;>
        constructor <;> simp [oidc_jwt_verify, hk, hf, hv]
  | none =>
    rw [verify_no_kid_eq true vp ec jwt keys hk]
    have h := verify_loop_deprecated_stops vp (oidc_jwt_alg2kty ec jwt)
      jwt.cjoseJws keys
    constructor
    · intro c hc
      rw [show ((⟨(oidc_jwt_verify_loop true vp (oidc_jwt_alg2kty ec jwt)
            jwt.cjoseJws keys).1, _, _,
            (oidc_jwt_verify_loop true vp (oidc_jwt_alg2kty ec jwt)
              jwt.cjoseJws keys).2.2⟩ : VerifyOut)).calls =
          (oidc_jwt_verify_loop true vp (oidc_jwt_alg2kty ec jwt)
            jwt.cjoseJws keys).2.2 from rfl,
          dropLast_eq_nil_of_length_le_one h.1] at hc
      exact absurd hc (List.not_mem_nil c)
    · intro c hc hfail
      obtain ⟨hn, hr⟩ := h.2 c hc hfail
      exact ⟨by simpa using hn, hr⟩

/-- C4 witness: a concrete deprecated provider version, a failing
primitive and a two-key keyset: the handle is invalidated and the
verification result is FALSE. -/
theorem deprecated_verify_short_circuit_witness :
    (oidc_jwt_verify (oidc_jose_version_deprecated "0.4.1")
        (fun _ _ => false) true
        { headerAlg := some "HS256", cjoseJws := some 5 }
        [⟨some "a", 3, some 1⟩, ⟨some "b", 3, some 2⟩]).jwt.cjoseJws =
      none ∧
    (oidc_jwt_verify (oidc_jose_version_deprecated "0.4.1")
        (fun _ _ => false) true
        { headerAlg := some "HS256", cjoseJws := some 5 }
        [⟨some "a", 3, some 1⟩, ⟨some "b", 3, some 2⟩]).rc = false :=
  (deprecated_verify_short_circuit "0.4.1" (fun _ _ => false) true
      { headerAlg := some "HS256", cjoseJws := some 5 }
      [⟨some "a", 3, some 1⟩, ⟨some "b", 3, some 2⟩] rfl).2
    ⟨some 5, some 1, false⟩ (by decide) rfl

/-- C10: oidc_jwk_destroy is null-safe and idempotent: a NULL JWK is a
no-op, after one call the key-material handle field is NULL, and any
further call on the resulting JWK releases nothing and changes nothing, so
the underlying cjose key handle is released at most once per JWK. -/
theorem jwk_destroy_null_safe_idempotent :
    oidc_jwk_destroy none = (none, false) ∧
    ∀ j : OidcJwk,
      ((oidc_jwk_destroy (some j)).1.map OidcJwk.cjoseJwk = some none) ∧
      (oidc_jwk_destroy (oidc_jwk_destroy (some j)).1).2 = false ∧
      (oidc_jwk_destroy (oidc_jwk_destroy (some j)).1).1 =
        (oidc_jwk_destroy (some j)).1 := by
  refine ⟨rfl, fun j => ?_⟩
  cases h : j.cjoseJwk <;> simp [oidc_jwk_destroy, h]

/-- C7: when no explicit kid is supplied, the generated kid is the
base64url encoding of the SHA-256 digest (the sha oracle) of the key
fingerprint bytes: the raw secret bytes for a symmetric key, the modulus
bytes followed by the exponent bytes for the RSA import path; identical key
material therefore always yields the identical kid, independent of the
handle allocation. -/
theorem jwk_kid_fingerprint_deterministic :
    (∀ (sha : List Nat → List Nat) (createOct : List Nat → Nat)
       (key : List Nat),
      (oidc_jwk_create_symmetric_key sha createOct none key true).kid =
        some (String.mk (base64urlEncode (sha key)))) ∧
    (∀ (sha : List Nat → List Nat) (n e : List Nat),
      oidc_jwk_rsa_bio_to_jwk_kid sha none n e =
        String.mk (base64urlEncode (sha (n ++ e)))) ∧
    (∀ (sha : List Nat → List Nat) (c1 c2 : List Nat → Nat)
       (key : List Nat),
      (oidc_jwk_create_symmetric_key sha c1 none key true).kid =
        (oidc_jwk_create_symmetric_key sha c2 none key true).kid) := by
  refine ⟨fun sha createOct key => rfl, fun sha n e => rfl,
          fun sha c1 c2 key => rfl⟩

/-- C3: serialization of a JWT whose header alg is none yields the constant
"eyJhbGciOiJub25lIn0", a dot, the base64url of the compact JSON payload,
and a trailing dot; the constant is itself the base64url of the minimal
alg-none header, and the payload with member a mapped to 1 serializes to
the exact byte string "eyJhbGciOiJub25lIn0.eyJhIjoxfQ.". -/
theorem jwt_serialize_alg_none_shape :
    (∀ (exportJws : Option Nat → Option String) (jwt : OidcJwt) (p : Json),
      jwt.headerAlg = some "none" → jwt.payloadJson = some p →
      oidc_jwt_serialize exportJws jwt =
        some (OIDC_JOSE_HDR_ALG_NONE ++ "." ++
              String.mk (base64urlEncode (strBytes (jsonDumps p))) ++ ".")) ∧
    String.mk (base64urlEncode (strBytes "\x7b\"alg\":\"none\"\x7d")) =
      OIDC_JOSE_HDR_ALG_NONE ∧
    oidc_jwt_serialize (fun _ => none)
        { headerAlg := some "none",
          payloadJson := some (.obj [("a", .num 1)]) } =
      some "eyJhbGciOiJub25lIn0.eyJhIjoxfQ." := by
  refine ⟨fun exportJws jwt p h1 h2 => ?_, rfl, rfl⟩
  simp [oidc_jwt_serialize, h1, h2, CJOSE_HDR_ALG_NONE]

/-- C3 witness: the general shape applied to the concrete payload with
member a mapped to 1. -/
theorem jwt_serialize_alg_none_shape_witness :
    oidc_jwt_serialize (fun _ => none)
        { headerAlg := some "none",
          payloadJson := some (.obj [("a", .num 1)]) } =
      some (OIDC_JOSE_HDR_ALG_NONE ++ "." ++
            String.mk (base64urlEncode
              (strBytes (jsonDumps (.obj [("a", .num 1)])))) ++ ".") :=
  jwt_serialize_alg_none_shape.1 (fun _ => none)
    { headerAlg := some "none", payloadJson := some (.obj [("a", .num 1)]) }
    (.obj [("a", .num 1)]) rfl rfl

/-- C8: when the input does not import as a JWE, oidc_jwe_decrypt with
import_must_succeed FALSE succeeds returning a copy of the original input,
while with import_must_succeed TRUE (and the output slot NULL-initialized,
as at the call site) it returns FALSE with the import error and no
output. -/
theorem jwe_decrypt_optional_import :
    ∀ (ec : Bool) (ji : String → Option CjoseJwe)
      (dp : Option Nat → Except Nat String) (input : String)
      (keys : Option (List OidcJwk)) (s0 : Option String),
      ji input = none →
      oidc_jwe_decrypt ec ji dp input keys s0 false =
        ⟨true, some input, .noErr⟩ ∧
      (s0 = none →
        oidc_jwe_decrypt ec ji dp input keys s0 true =
          ⟨false, none, .jweImportFailed⟩) := by
  intro ec ji dp input keys s0 h
  refine ⟨by simp [oidc_jwe_decrypt, h], fun h0 => by simp [oidc_jwe_decrypt, h, h0]⟩

/-- C8 witness: a concrete import-failure environment, in both modes. -/
theorem jwe_decrypt_optional_import_witness :
    oidc_jwe_decrypt true (fun _ => none) (fun _ => Except.error 0) "tok"
        (some []) none false = ⟨true, some "tok", .noErr⟩ ∧
    oidc_jwe_decrypt true (fun _ => none) (fun _ => Except.error 0) "tok"
        (some []) none true = ⟨false, none, .jweImportFailed⟩ :=
  ⟨(jwe_decrypt_optional_import true (fun _ => none) (fun _ => Except.error 0)
      "tok" (some []) none rfl).1,
   (jwe_decrypt_optional_import true (fun _ => none) (fun _ => Except.error 0)
      "tok" (some []) none rfl).2 rfl⟩

/-- C6 counterexample: the identifier "HSfoo" is outside the recognized
algorithm set, yet oidc_alg2kty maps it to the Octet key type instead of
returning -1, because the source classifies by two-character prefix. -/
theorem alg2kty_unknown_not_minus_one_cex :
    "HSfoo" ∉ specRecognizedAlgs ∧
    oidc_alg2kty true "HSfoo" = CJOSE_JWK_KTY_OCT ∧
    CJOSE_JWK_KTY_OCT ≠ -1 := by
  refine ⟨by decide, rfl, by decide⟩

/-- Two-character prefix test unfolded to the underlying character
list. -/
theorem strncmpEq_two {alg : String} {c1 c2 : Char}
    (h : strncmpEq alg [c1, c2] = true) : alg.toList.take 2 = [c1, c2] := by
  simpa [strncmpEq] using h

/-- C6 amended: oidc_alg2kty maps every recognized identifier to the key
type the claim lists (dir, HS256/384/512 and the AES key-wrap identifiers
to Octet; the RS and PS families, RSA1_5 and RSA-OAEP to RSA; the ES
identifiers to EllipticCurve when EC support is compiled and to -1 when it
is not); more generally, classification is by two-character prefix: every
identifier beginning with RS or PS maps to RSA, every identifier beginning
with HS to Octet, and every identifier beginning with ES to EllipticCurve
when EC support is compiled and to -1 otherwise; the unknown value -1 is
returned if and only if the identifier carries none of the prefixes RS, PS
and HS, carries the prefix ES only if EC support is not compiled, and
differs from each of the exact-match names dir, A128KW, A192KW, A256KW,
RSA1_5 and RSA-OAEP. -/
theorem alg2kty_characterization :
    ∀ (ec : Bool) (alg : String),
      (alg ∈ ["dir", "HS256", "HS384", "HS512",
              "A128KW", "A192KW", "A256KW"] →
        oidc_alg2kty ec alg = CJOSE_JWK_KTY_OCT) ∧
      (alg ∈ ["RS256", "RS384", "RS512", "PS256", "PS384", "PS512",
              "RSA1_5", "RSA-OAEP"] →
        oidc_alg2kty ec alg = CJOSE_JWK_KTY_RSA) ∧
      (alg ∈ ["ES256", "ES384", "ES512"] →
        oidc_alg2kty true alg = CJOSE_JWK_KTY_EC ∧
        oidc_alg2kty false alg = -1) ∧
      (strncmpEq alg ['R', 'S'] = true →
        oidc_alg2kty ec alg = CJOSE_JWK_KTY_RSA) ∧
      (strncmpEq alg ['P', 'S'] = true →
        oidc_alg2kty ec alg = CJOSE_JWK_KTY_RSA) ∧
      (strncmpEq alg ['H', 'S'] = true →
        oidc_alg2kty ec alg = CJOSE_JWK_KTY_OCT) ∧
      (strncmpEq alg ['E', 'S'] = true →
        oidc_alg2kty ec alg = if ec then CJOSE_JWK_KTY_EC else -1) ∧
      (oidc_alg2kty ec alg = -1 ↔
        strncmpEq alg ['R', 'S'] = false ∧
        strncmpEq alg ['P', 'S'] = false ∧
        strncmpEq alg ['H', 'S'] = false ∧
        (strncmpEq alg ['E', 'S'] = true → ec = false) ∧
        alg ≠ "dir" ∧ alg ≠ "A128KW" ∧ alg ≠ "A192KW" ∧ alg ≠ "A256KW" ∧
        alg ≠ "RSA1_5" ∧ alg ≠ "RSA-OAEP") := by
  intro ec alg
  have hRS : strncmpEq alg ['R', 'S'] = true →
      oidc_alg2kty ec alg = CJOSE_JWK_KTY_RSA := by
    intro h
    have ht := strncmpEq_two h
    have hd : alg ≠ CJOSE_HDR_ALG_DIR := by
      intro he; rw [he] at ht; exact absurd ht (by decide)
    simp [oidc_alg2kty, hd, h]
  have hPS : strncmpEq alg ['P', 'S'] = true →
      oidc_alg2kty ec alg = CJOSE_JWK_KTY_RSA := by
    intro h
    have ht := strncmpEq_two h
    have hd : alg ≠ CJOSE_HDR_ALG_DIR := by
      intro he; rw [he] at ht; exact absurd ht (by decide)
    have h1 : strncmpEq alg ['R', 'S'] = false :=
      decide_eq_false (fun hq => absurd (ht.symm.trans hq) (by decide))
    simp [oidc_alg2kty, hd, h1, h]
  have hHS : strncmpEq alg ['H', 'S'] = true →
      oidc_alg2kty ec alg = CJOSE_JWK_KTY_OCT := by
    intro h
    have ht := strncmpEq_two h
    have hd : alg ≠ CJOSE_HDR_ALG_DIR := by
      intro he; rw [he] at ht; exact absurd ht (by decide)
    have h1 : strncmpEq alg ['R', 'S'] = false :=
      decide_eq_false (fun hq => absurd (ht.symm.trans hq) (by decide))
    have h2 : strncmpEq alg ['P', 'S'] = false :=
      decide_eq_false (fun hq => absurd (ht.symm.trans hq) (by decide))
    simp [oidc_alg2kty, hd, h1, h2, h]
  have hES : strncmpEq alg ['E', 'S'] = true →
      oidc_alg2kty ec alg = if ec then CJOSE_JWK_KTY_EC else -1 := by
    intro h
    have ht := strncmpEq_two h
    have hd : alg ≠ CJOSE_HDR_ALG_DIR := by
      intro he; rw [he] at ht; exact absurd ht (by decide)
    have h1 : strncmpEq alg ['R', 'S'] = false :=
      decide_eq_false (fun hq => absurd (ht.symm.trans hq) (by decide))
    have h2 : strncmpEq alg ['P', 'S'] = false :=
      decide_eq_false (fun hq => absurd (ht.symm.trans hq) (by decide))
    have h3 : strncmpEq alg ['H', 'S'] = false :=
      decide_eq_false (fun hq => absurd (ht.symm.trans hq) (by decide))
    have ha1 : alg ≠ "A128KW" := by
      intro he; rw [he] at ht; exact absurd ht (by decide)
    have ha2 : alg ≠ "A192KW" := by
      intro he; rw [he] at ht; exact absurd ht (by decide)
    have ha3 : alg ≠ "A256KW" := by
      intro he; rw [he] at ht; exact absurd ht (by decide)
    have hr1 : alg ≠ "RSA1_5" := by
      intro he; rw [he] at ht; exact absurd ht (by decide)
    have hr2 : alg ≠ "RSA-OAEP" := by
      intro he; rw [he] at ht; exact absurd ht (by decide)
    cases ec with
    | true => simp [oidc_alg2kty, hd, h1, h2, h3, h]
    | false =>
      simp [oidc_alg2kty, hd, h1, h2, h3, h, ha1, ha2, ha3, hr1, hr2]
  refine ⟨fun h => ?_, fun h => ?_, fun h => ?_, hRS, hPS, hHS, hES, ?_⟩
  · fin_cases h <;> cases ec <;> rfl
  · fin_cases h <;> cases ec <;> rfl
  · fin_cases h <;> exact ⟨rfl, rfl⟩
  · constructor
    · intro hneg
      refine ⟨?_, ?_, ?_, ?_, ?_, ?_, ?_, ?_, ?_, ?_⟩
      · cases hb : strncmpEq alg ['R', 'S'] with
        | false => rfl
        | true => rw [hRS hb] at hneg; exact absurd hneg (by decide)
      · cases hb : strncmpEq alg ['P', 'S'] with
        | false => rfl
        | true => rw [hPS hb] at hneg; exact absurd hneg (by decide)
      · cases hb : strncmpEq alg ['H', 'S'] with
        | false => rfl
        | true => rw [hHS hb] at hneg; exact absurd hneg (by decide)
      · intro hes
        cases hec : ec with
        | false => rfl
        | true =>
          rw [hec] at hneg hES
          rw [hES hes] at hneg
          exact absurd hneg (by decide)
      · intro he
        rw [he] at hneg
        cases ec <;> exact absurd hneg (by decide)
      · intro he
        rw [he] at hneg
        cases ec <;> exact absurd hneg (by decide)
      · intro he
        rw [he] at hneg
        cases ec <;> exact absurd hneg (by decide)
      · intro he
        rw [he] at hneg
        cases ec <;> exact absurd hneg (by decide)
      · intro he
        rw [he] at hneg
        cases ec <;> exact absurd hneg (by decide)
      · intro he
        rw [he] at hneg
        cases ec <;> exact absurd hneg (by decide)
    · rintro ⟨h1, h2, h3, h4, h5, h6, h7, h8, h9, h10⟩
      cases hes : strncmpEq alg ['E', 'S'] with
      | true =>
        have hec := h4 hes
        subst hec
        simp [oidc_alg2kty, CJOSE_HDR_ALG_DIR, h1, h2, h3, h5, h6, h7, h8,
              h9, h10, hes]
      | false =>
        simp [oidc_alg2kty, CJOSE_HDR_ALG_DIR, h1, h2, h3, h5, h6, h7, h8,
              h9, h10, hes]

/-- C6 witness: the characterization applied to one identifier of each
recognized family, to unrecognized identifiers carrying each of the RS, PS,
HS and ES prefixes, and to an identifier with no recognized prefix. -/
theorem alg2kty_characterization_witness :
    oidc_alg2kty true "HS256" = CJOSE_JWK_KTY_OCT ∧
    oidc_alg2kty false "RS256" = CJOSE_JWK_KTY_RSA ∧
    oidc_alg2kty true "ES384" = CJOSE_JWK_KTY_EC ∧
    oidc_alg2kty false "ES384" = -1 ∧
    oidc_alg2kty false "RSfoo" = CJOSE_JWK_KTY_RSA ∧
    oidc_alg2kty true "PSx" = CJOSE_JWK_KTY_RSA ∧
    oidc_alg2kty false "HSZZZ" = CJOSE_JWK_KTY_OCT ∧
    oidc_alg2kty true "ESfoo" = CJOSE_JWK_KTY_EC ∧
    oidc_alg2kty false "ESfoo" = -1 ∧
    oidc_alg2kty true "foo" = -1 :=
  ⟨(alg2kty_characterization true "HS256").1 (by decide),
   (alg2kty_characterization false "RS256").2.1 (by decide),
   ((alg2kty_characterization true "ES384").2.2.1 (by decide)).1,
   ((alg2kty_characterization true "ES384").2.2.1 (by decide)).2,
   (alg2kty_characterization false "RSfoo").2.2.2.1 rfl,
   (alg2kty_characterization true "PSx").2.2.2.2.1 rfl,
   (alg2kty_characterization false "HSZZZ").2.2.2.2.2.1 rfl,
   (alg2kty_characterization true "ESfoo").2.2.2.2.2.2.1 rfl,
   (alg2kty_characterization false "ESfoo").2.2.2.2.2.2.1 rfl,
   (alg2kty_characterization true "foo").2.2.2.2.2.2.2.mpr
     ⟨rfl, rfl, rfl, fun hq => absurd hq (by decide), by decide, by decide,
      by decide, by decide, by decide, by decide⟩⟩

/-- C1 counterexample: against an empty keyset with a kid header,
oidc_jwt_verify makes no primitive call but reports the key-not-found
error, not the no-keys-configured error the claim states for it. -/
theorem empty_keyset_fail_fast_cex :
    (oidc_jwt_verify false (fun _ _ => true) true
        { headerKid := some "k1" } []).err =
      .couldNotFindKeyWithKid "k1" ∧
    JoseErr.couldNotFindKeyWithKid "k1" ≠ .noDecryptionKeysConfigured ∧
    (oidc_jwt_verify false (fun _ _ => true) true
        { headerKid := some "k1" } []).calls = [] :=
  ⟨rfl, by decide, rfl⟩

/-- C1 amended: with a NULL or empty keyset, oidc_jwe_decrypt_impl fails
fast with the dedicated no-decryption-keys-configured error before any
cjose_jwe_decrypt call; oidc_jwt_verify with an empty keyset likewise makes
no cjose_jws_verify call and returns FALSE, but its error is the
key-not-found report when a kid header is present and the
could-not-verify-against-any-of-the-zero-keys report (with the
no-keys hint) when it is absent, not a dedicated no-keys-configured
error. -/
theorem empty_keyset_fail_fast :
    (∀ (ec : Bool) (dp : Option Nat → Except Nat String) (jwe : CjoseJwe)
       (keys : Option (List OidcJwk)),
      keys = none ∨ keys = some [] →
      oidc_jwe_decrypt_impl ec dp jwe keys =
        ⟨none, .noDecryptionKeysConfigured, []⟩) ∧
    (∀ (dep : Bool) (vp : Option Nat → Option Nat → Bool) (ec : Bool)
       (jwt : OidcJwt),
      (oidc_jwt_verify dep vp ec jwt []).rc = false ∧
      (oidc_jwt_verify dep vp ec jwt []).calls = [] ∧
      (∀ kid, jwt.headerKid = some kid →
        (oidc_jwt_verify dep vp ec jwt []).err =
          .couldNotFindKeyWithKid kid) ∧
      (jwt.headerKid = none →
        (oidc_jwt_verify dep vp ec jwt []).err =
          .verifyAllKeysFailed 0 true)) := by
  constructor
  · rintro ec dp jwe keys (rfl | rfl) <;> rfl
  · intro dep vp ec jwt
    cases hk : jwt.headerKid <;>
      simp [oidc_jwt_verify, oidc_jwt_verify_loop, hk]

/-- C1 witness: the fail-fast behaviour at an empty keyset, for decryption
and for verification without a kid header. -/
theorem empty_keyset_fail_fast_witness :
    oidc_jwe_decrypt_impl true (fun _ => Except.error 0) {} (some []) =
      ⟨none, .noDecryptionKeysConfigured, []⟩ ∧
    (oidc_jwt_verify true (fun _ _ => true) true {} []).err =
      .verifyAllKeysFailed 0 true :=
  ⟨empty_keyset_fail_fast.1 true (fun _ => Except.error 0) {} (some [])
     (Or.inr rfl),
   (empty_keyset_fail_fast.2 true (fun _ _ => true) true {}).2.2.2 rfl⟩

/-- C5 counterexample: a keyset of two keys of which only one matches the
header algorithm key type; only that key is tried and fails, yet the error
reports the size of the whole keyset (2), not the number of keys tried
(1). -/
theorem jwe_decrypt_tried_count_cex :
    (oidc_jwe_decrypt_impl true (fun _ => Except.error 7) ⟨none, "A128KW"⟩
        (some [⟨some "k1", 3, some 10⟩, ⟨some "k2", 1, some 11⟩])).err =
      .decryptAllKeysFailed 2 (some 7) ∧
    (oidc_jwe_decrypt_impl true (fun _ => Except.error 7) ⟨none, "A128KW"⟩
        (some [⟨some "k1", 3, some 10⟩, ⟨some "k2", 1, some 11⟩])).tried.length
      = 1 ∧
    (2 : Nat) ≠ 1 :=
  ⟨rfl, rfl, by decide⟩

/-- C5 amended: without a kid header, oidc_jwe_decrypt_impl attempts
decryption only with keyset members whose kty equals oidc_alg2kty of the
header alg, stopping at the first success (all earlier attempts failed);
when no attempt succeeds the reported error carries the total number of
keys in the keyset (counting also keys never tried because their kty does
not match) and the diagnostic of the last attempt only. -/
theorem jwe_decrypt_no_kid_trial_policy :
    ∀ (ec : Bool) (dp : Option Nat → Except Nat String) (alg : String)
      (ks : List OidcJwk), ks ≠ [] →
      (∀ j ∈ (oidc_jwe_decrypt_impl ec dp ⟨none, alg⟩ (some ks)).tried,
        j.kty = oidc_alg2kty ec alg ∧ j ∈ ks) ∧
      (∀ p, (oidc_jwe_decrypt_impl ec dp ⟨none, alg⟩ (some ks)).plaintext =
              some p →
        ∃ t k,
          (oidc_jwe_decrypt_impl ec dp ⟨none, alg⟩ (some ks)).tried =
            t ++ [k] ∧
          dp k.cjoseJwk = .ok p ∧
          ∀ j ∈ t, ∃ e, dp j.cjoseJwk = .error e) ∧
      ((oidc_jwe_decrypt_impl ec dp ⟨none, alg⟩ (some ks)).plaintext =
          none →
        (oidc_jwe_decrypt_impl ec dp ⟨none, alg⟩ (some ks)).err =
          .decryptAllKeysFailed ks.length
            (lastAttemptDiag dp
              (oidc_jwe_decrypt_impl ec dp ⟨none, alg⟩ (some ks)).tried) ∧
        ∀ j d,
          (oidc_jwe_decrypt_impl ec dp ⟨none, alg⟩ (some ks)).tried.getLast?
            = some j →
          dp j.cjoseJwk = .error d →
          (oidc_jwe_decrypt_impl ec dp ⟨none, alg⟩ (some ks)).err =
            .decryptAllKeysFailed ks.length (some d)) := by
  intro ec dp alg ks hne
  have hlen : ¬ks.length = 0 := by
    simpa [List.length_eq_zero] using hne
  have hspec := jwe_loop_spec dp (oidc_alg2kty ec alg) ks
  cases hp : (oidc_jwe_decrypt_loop dp (oidc_alg2kty ec alg) ks).1 with
  | some pt =>
    have heq : oidc_jwe_decrypt_impl ec dp ⟨none, alg⟩ (some ks) =
        ⟨some pt, .noErr,
         (oidc_jwe_decrypt_loop dp (oidc_alg2kty ec alg) ks).2⟩ := by
      simp [oidc_jwe_decrypt_impl, hlen, hp]
    refine ⟨?_, ?_, ?_⟩
    · intro j hj
      rw [heq] at hj
      exact hspec.1 j hj
    · intro p hpp
      rw [heq] at hpp ⊢
      simp only at hpp
      exact hspec.2.1 p (hp.trans hpp)
    · intro hpp
      rw [heq] at hpp
      simp at hpp
  | none =>
    have heq : oidc_jwe_decrypt_impl ec dp ⟨none, alg⟩ (some ks) =
        ⟨none,
         .decryptAllKeysFailed ks.length
           (lastAttemptDiag dp
             (oidc_jwe_decrypt_loop dp (oidc_alg2kty ec alg) ks).2),
         (oidc_jwe_decrypt_loop dp (oidc_alg2kty ec alg) ks).2⟩ := by
      simp [oidc_jwe_decrypt_impl, hlen, hp]
    refine ⟨?_, ?_, ?_⟩
    · intro j hj
      rw [heq] at hj
      exact hspec.1 j hj
    · intro p hpp
      rw [heq] at hpp
      simp at hpp
    · intro _
      rw [heq]
      refine ⟨rfl, ?_⟩
      intro j d hlast hd
      simp only [lastAttemptDiag, hlast, hd]

/-- C5 witness: a single matching key that fails to decrypt: the error
reports one key and the diagnostic of that last attempt. -/
theorem jwe_decrypt_no_kid_trial_policy_witness :
    (oidc_jwe_decrypt_impl true (fun _ => Except.error 5) ⟨none, "A128KW"⟩
        (some [⟨some "k1", 3, some 10⟩])).err =
      .decryptAllKeysFailed 1
        (lastAttemptDiag (fun _ => Except.error 5)
          (oidc_jwe_decrypt_impl true (fun _ => Except.error 5)
            ⟨none, "A128KW"⟩ (some [⟨some "k1", 3, some 10⟩])).tried) :=
  ((jwe_decrypt_no_kid_trial_policy true (fun _ => Except.error 5) "A128KW"
      [⟨some "k1", 3, some 10⟩] (by decide)).2.2 rfl).1

/-- C2 counterexample: an environment in which the decrypt stage passes the
input through, the JWS import succeeds and cjose_jws_get_plaintext fails:
oidc_jwt_parse returns FALSE but leaves the caller output pointer set to
the partially built JWT without destroying it. -/
theorem jwt_parse_partial_surfaced_cex :
    (oidc_jwt_parse true
        ⟨fun _ => none, fun _ => Except.error 0, fun _ => some 1,
         fun _ => Json.obj [], fun _ => none, fun _ => none⟩
        "tok" (some []) none).rc = false ∧
    (oidc_jwt_parse true
        ⟨fun _ => none, fun _ => Except.error 0, fun _ => some 1,
         fun _ => Json.obj [], fun _ => none, fun _ => none⟩
        "tok" (some []) none).jjwt.isSome = true ∧
    (oidc_jwt_parse true
        ⟨fun _ => none, fun _ => Except.error 0, fun _ => some 1,
         fun _ => Json.obj [], fun _ => none, fun _ => none⟩
        "tok" (some []) none).destroyed = false :=
  ⟨rfl, rfl, rfl⟩

/-- C2 amended: when oidc_jwt_parse fails at the JWS-import stage or at the
payload stage (payload not valid JSON, payload not a JSON object), the
partially built JWT is destroyed and the caller output pointer is set to
NULL alongside the FALSE return; on a plaintext-extraction failure,
however, the function returns FALSE while leaving the partially built JWT
in the output pointer without destroying it. -/
theorem jwt_parse_failure_cleanup :
    ∀ (ec : Bool) (env : ParseEnv) (input : String)
      (keys : Option (List OidcJwk)) (j0 : Option OidcJwt) (s : String),
      (oidc_jwe_decrypt ec env.jweImport env.decryptPrim input keys none
          false).sJson = some s →
      ((env.jwsImport s = none →
          oidc_jwt_parse ec env input keys j0 =
            ⟨false, none, true, .jwsImportFailed⟩) ∧
       (∀ h : Nat, env.jwsImport s = some h →
         ((env.jwsPlaintext h = none →
             (oidc_jwt_parse ec env input keys j0).rc = false ∧
             (oidc_jwt_parse ec env input keys j0).jjwt.isSome = true ∧
             (oidc_jwt_parse ec env input keys j0).destroyed = false) ∧
          (∀ pt, env.jwsPlaintext h = some pt →
            (env.jsonLoads pt = none →
               oidc_jwt_parse ec env input keys j0 =
                 ⟨false, none, true, .jsonParseFailed⟩) ∧
            (∀ pj, env.jsonLoads pt = some pj → json_is_object pj = false →
               oidc_jwt_parse ec env input keys j0 =
                 ⟨false, none, true, .jsonNotObject⟩))))) := by
  intro ec env input keys j0 s hs
  constructor
  · intro hi
    simp [oidc_jwt_parse, hs, hi]
  · intro h hi
    constructor
    · intro hpt
      simp [oidc_jwt_parse, hs, hi, hpt]
    · intro pt hpt
      constructor
      · intro hl
        simp [oidc_jwt_parse, hs, hi, hpt, oidc_jose_parse_payload, hl]
      · intro pj hl ho
        simp [oidc_jwt_parse, hs, hi, hpt, oidc_jose_parse_payload, hl, ho]

/-- C2 witness: a JWS-import failure destroys the JWT under construction
and clears the output pointer. -/
theorem jwt_parse_failure_cleanup_witness :
    oidc_jwt_parse true
        ⟨fun _ => none, fun _ => Except.error 0, fun _ => none,
         fun _ => Json.obj [], fun _ => none, fun _ => none⟩
        "tok" (some []) none =
      ⟨false, none, true, .jwsImportFailed⟩ :=
  (jwt_parse_failure_cleanup true
      ⟨fun _ => none, fun _ => Except.error 0, fun _ => none,
       fun _ => Json.obj [], fun _ => none, fun _ => none⟩
      "tok" (some []) none "tok" rfl).1 rfl

/-- Loop of oidc_jwk_parse_rsa_x5c produces exactly the lines of the
75-character chunking. -/
theorem x5cPemGo_eq_specPemLines :
    ∀ (n : Nat) (cs : List Char),
      x5cPemGo n cs = specPemLines (specChunksGo n cs) := by
  intro n
  induction n with
  | zero => intro cs; cases cs <;> rfl
  | succ n ih =>
    intro cs
    cases cs with
    | nil => rfl
    | cons c cs =>
      show String.mk ((c :: cs).take 75) ++ "\n" ++
             x5cPemGo n ((c :: cs).drop 75) =
           specPemLines ((c :: cs).take 75 ::
             specChunksGo n ((c :: cs).drop 75))
      rw [ih, specPemLines]

/-- PEM text reconstructed by the source equals the PEM text the
specification describes. -/
theorem x5cPemText_eq_specPemText (s : String) :
    x5cPemText s = specPemText s := by
  simp [x5cPemText, specPemText, x5cPemLoop, specChunks75,
        x5cPemGo_eq_specPemLines]

/-- Chunks of the 75-character wrapping concatenate back to the original
sequence. -/
theorem specChunksGo_join :
    ∀ (n : Nat) (cs : List Char), cs.length ≤ n →
      (specChunksGo n cs).flatten = cs := by
  intro n
  induction n with
  | zero =>
    intro cs h
    have : cs = [] := List.length_eq_zero.mp (Nat.le_zero.mp h)
    subst this; rfl
  | succ n ih =>
    intro cs h
    cases cs with
    | nil => rfl
    | cons c cs =>
      have hd : ((c :: cs).drop 75).length ≤ n := by
        simp only [List.length_drop, List.length_cons] at h ⊢
        omega
      show ((c :: cs).take 75 ::
              specChunksGo n ((c :: cs).drop 75)).flatten = c :: cs
      rw [List.flatten_cons, ih _ hd]
      exact List.take_append_drop 75 (c :: cs)

/-- Each chunk of the 75-character wrapping has at most 75 characters. -/
theorem specChunksGo_length_le :
    ∀ (n : Nat) (cs : List Char) (l : List Char),
      l ∈ specChunksGo n cs → l.length ≤ 75 := by
  intro n
  induction n with
  | zero => intro cs l h; simp [specChunksGo] at h
  | succ n ih =>
    intro cs l h
    cases cs with
    | nil => simp [specChunksGo] at h
    | cons c cs =>
      simp only [specChunksGo, List.mem_cons] at h
      rcases h with h | h
      · subst h
        simp [List.length_take]
      · exact ih _ l h

/-- Every chunk of the 75-character wrapping except possibly the last has
exactly 75 characters. -/
theorem specChunksGo_dropLast_length :
    ∀ (n : Nat) (cs : List Char) (l : List Char),
      l ∈ (specChunksGo n cs).dropLast → l.length = 75 := by
  intro n
  induction n with
  | zero => intro cs l h; simp [specChunksGo] at h
  | succ n ih =>
    intro cs l h
    cases cs with
    | nil => simp [specChunksGo] at h
    | cons c cs =>
      simp only [specChunksGo] at h
      cases hrec : specChunksGo n ((c :: cs).drop 75) with
      | nil => rw [hrec] at h; simp at h
      | cons r rs =>
        rw [hrec] at h
        rw [List.dropLast_cons₂] at h
        rcases List.mem_cons.mp h with h | h
        · subst h
          have hne : (c :: cs).drop 75 ≠ [] := by
            intro hd
            rw [hd] at hrec
            cases n <;> simp [specChunksGo] at hrec
          have hlen : 75 < (c :: cs).length := by
            by_contra hle
            push_neg at hle
            exact hne (List.drop_eq_nil_of_le hle)
          simp only [List.length_take, List.length_cons] at hlen ⊢
          omega
        · rw [← hrec] at h
          exact ih _ l h

/-- C9: for a JSON object whose x5c member is an array with a string first
element, oidc_jwk_parse_rsa_x5c hands the certificate-decode path
(oidc_jwk_rsa_bio_to_jwk, with is-private FALSE and the optional kid
member) exactly the PEM text made of the BEGIN delimiter, the payload
wrapped into lines of 75 characters (concatenating back to the payload,
every line at most 75 characters and all but the last exactly 75), and the
END delimiter, and returns that path result. -/
theorem jwk_parse_rsa_x5c_pem_reconstruction :
    ∀ (bioToJwk : String → Option String → Bool → Bool × Option Nat)
      (json : Json) (p : String) (rest : List Json),
      json_object_get json "x5c" = some (.arr (.str p :: rest)) →
      (oidc_jwk_parse_rsa_x5c bioToJwk json).call =
        some (specPemText p, x5cKid json, false) ∧
      (oidc_jwk_parse_rsa_x5c bioToJwk json).rv =
        (bioToJwk (specPemText p) (x5cKid json) false).1 ∧
      (specChunks75 p.toList).flatten = p.toList ∧
      (∀ l ∈ specChunks75 p.toList, l.length ≤ 75) ∧
      (∀ l ∈ (specChunks75 p.toList).dropLast, l.length = 75) := by
  intro bioToJwk json p rest hx
  refine ⟨?_, ?_, specChunksGo_join p.toList.length p.toList (Nat.le_refl _),
          fun l hl => specChunksGo_length_le _ _ l hl,
          fun l hl => specChunksGo_dropLast_length _ _ l hl⟩
  · simp [oidc_jwk_parse_rsa_x5c, hx, x5cPemText_eq_specPemText]
  · simp [oidc_jwk_parse_rsa_x5c, hx, x5cPemText_eq_specPemText]

/-- C9 witness: the concrete x5c-only JWK with payload "AB" is decoded
through the certificate path with the reconstructed PEM text and no
explicit kid. -/
theorem jwk_parse_rsa_x5c_pem_reconstruction_witness :
    (oidc_jwk_parse_rsa_x5c (fun _ _ _ => (true, some 9))
        (.obj [("kty", .str "RSA"), ("x5c", .arr [.str "AB"])])).call =
      some (specPemText "AB",
            x5cKid (.obj [("kty", .str "RSA"), ("x5c", .arr [.str "AB"])]),
            false) ∧
    specPemText "AB" =
      "-----BEGIN CERTIFICATE-----\nAB\n-----END CERTIFICATE-----\n" :=
  ⟨(jwk_parse_rsa_x5c_pem_reconstruction (fun _ _ _ => (true, some 9))
      (.obj [("kty", .str "RSA"), ("x5c", .arr [.str "AB"])]) "AB" []
      rfl).1,
   rfl⟩

end ModAuthOpenidc
